import Mathlib

/-!
# Verification of the Minecraft World Analytics filter-and-aggregate pipeline

Shallow embedding of `src/project.py`: the synthetic-data generator
(`generate_data`), the global filtering block (`activity_f`, `mining_f`,
`economy_f`, `deaths_f`), the Statistics-tab KPI block and the Chaos-tab
metric, and the chart-data projections (`top_players`).

Python/pandas conventions modelled:
* a `DataFrame` is a `List` of records; boolean-mask selection is
  `List.filter` (order- and multiplicity-preserving);
* `Series.between lo hi` is inclusive on both ends;
* `nunique` is the number of distinct values;
* float columns are modelled by `ℚ`;
* `groupby(k)` sorts the group keys ascending (pandas default `sort=True`;
  the keys are distinct, so no tie-break question arises there);
* `sort_values(ascending=False)` is called with the default
  `kind='quicksort'`, which pandas documents as not stable ("'mergesort'
  and 'stable' are the only stable algorithms"), so the relative order of
  tied values is implementation-defined; the embedding models the sort by
  its documented contract — a relation admitting every descending-sorted
  permutation of the input — rather than fixing a tie order the code does
  not guarantee;
* machine integers are modelled by `Int` (no overflow is reachable at the
  sizes involved).
-/

/-- The `mode` column: one of exactly three game modes. -/
inductive Mode
  | Survival
  | Creative
  | Hardcore
deriving DecidableEq, Repr

/-- The `style` column of the Activity table. -/
inductive Style
  | Builder
  | Miner
  | Fighter
  | Explorer
deriving DecidableEq, Repr

/-- The `biome` column of the Mining table. -/
inductive Biome
  | Forest
  | Plains
  | Desert
  | Mountains
  | Swamp
  | Nether
  | End
deriving DecidableEq, Repr

/-- The `resource` column of the Mining table. -/
inductive Resource
  | Diamond
  | Iron
  | Gold
  | Redstone
  | Coal
deriving DecidableEq, Repr

/-- The `cause` column of the Deaths table. -/
inductive Cause
  | Lava
  | Creeper
  | Fall
  | PvP
  | Skeleton
  | Void
deriving DecidableEq, Repr

/-- One row of the `activity` DataFrame. -/
structure ActivityRec where
  day : Int
  player : String
  hours_played : ℚ
  style : Style
  mode : Mode
deriving DecidableEq, Repr

/-- One row of the `mining` DataFrame. -/
structure MiningRec where
  day : Int
  player : String
  resource : Resource
  y_level : Int
  biome : Biome
  mode : Mode
deriving DecidableEq, Repr

/-- One row of the `economy` DataFrame. -/
structure EconomyRec where
  day : Int
  player : String
  balance : ℚ
  mode : Mode
  cheater : Bool
deriving DecidableEq, Repr

/-- One row of the `deaths` DataFrame. -/
structure DeathRec where
  day : Int
  player : String
  cause : Cause
  mode : Mode
deriving DecidableEq, Repr

/-- The sidebar parameter set: `mode` selectbox, `day_range` slider endpoints,
`selected_biomes` and `selected_resources` multiselects, and the two
checkboxes. -/
structure Params where
  mode : Mode
  day_lo : Int
  day_hi : Int
  biomes : List Biome
  resources : List Resource
  active_only : Bool
  honest_only : Bool

/-- `Series.between(lo, hi)`: inclusive on both ends (pandas default). -/
def between (lo hi x : Int) : Bool :=
  decide (lo ≤ x) && decide (x ≤ hi)

/-- `activity_f`: the global Activity filter —
`activity[(activity.day.between(*day_range)) & (activity.mode == mode)]`,
then, when `active_only` is checked, `activity_f[activity_f.hours_played > 2]`. -/
def activity_f (p : Params) (activity : List ActivityRec) : List ActivityRec :=
  let base := activity.filter fun r =>
    between p.day_lo p.day_hi r.day && decide (r.mode = p.mode)
  if p.active_only then base.filter (fun r => decide ((2 : ℚ) < r.hours_played)) else base

/-- `mining_f`: the global Mining filter — day range, mode, membership in
`selected_biomes` and in `selected_resources`. -/
def mining_f (p : Params) (mining : List MiningRec) : List MiningRec :=
  mining.filter fun r =>
    between p.day_lo p.day_hi r.day && decide (r.mode = p.mode)
      && decide (r.biome ∈ p.biomes) && decide (r.resource ∈ p.resources)

/-- `economy_f`: the global Economy filter — day range and mode, then, when
`honest_only` is checked, `economy_f[~economy_f.cheater]`. -/
def economy_f (p : Params) (economy : List EconomyRec) : List EconomyRec :=
  let base := economy.filter fun r =>
    between p.day_lo p.day_hi r.day && decide (r.mode = p.mode)
  if p.honest_only then base.filter (fun r => !r.cheater) else base

/-- `deaths_f`: the global Deaths filter — day range and mode. -/
def deaths_f (p : Params) (deaths : List DeathRec) : List DeathRec :=
  deaths.filter fun r =>
    between p.day_lo p.day_hi r.day && decide (r.mode = p.mode)

/-- `unique_players = activity_f["player"].nunique()`. -/
def unique_players (a : List ActivityRec) : Nat :=
  ((a.map (·.player)).dedup).length

/-- `total_playtime = activity_f["hours_played"].sum()`. -/
def total_playtime (a : List ActivityRec) : ℚ :=
  (a.map (·.hours_played)).sum

/-- `avg_playtime = total_playtime / unique_players if unique_players > 0 else 0`. -/
def avg_playtime (a : List ActivityRec) : ℚ :=
  if 0 < unique_players a then total_playtime a / (unique_players a : ℚ) else 0

/-- `mining_events = len(mining_f)`. -/
def mining_events (m : List MiningRec) : Nat := m.length

/-- `deaths_count = len(deaths_f)`. -/
def deaths_count (d : List DeathRec) : Nat := d.length

/-- The Statistics-tab chaos index:
`deaths_count / unique_players if unique_players > 0 else 0`. -/
def chaos_index_stats (a : List ActivityRec) (d : List DeathRec) : ℚ :=
  if 0 < unique_players a then (deaths_count d : ℚ) / (unique_players a : ℚ) else 0

/-- The Chaos-tab chaos index:
`len(deaths_f) / max(activity_f["player"].nunique(), 1)`. -/
def chaos_index_chaos (a : List ActivityRec) (d : List DeathRec) : ℚ :=
  (deaths_count d : ℚ) / ((max (unique_players a) 1 : Nat) : ℚ)

/-- Number of occurrences of a value in a column. -/
def count_occ {α : Type} [DecidableEq α] (l : List α) (v : α) : Nat :=
  (l.filter (fun x => decide (x = v))).length

/-- `value_counts().idxmax()` on a nonempty column: a value of maximal
count. pandas's order among tied counts is implementation-defined; the model
fixes the first-encountered maximiser (no claim depends on the tie). -/
def idxmax_count {α : Type} [DecidableEq α] (dflt : α) (l : List α) : α :=
  l.dedup.foldl (fun best v => if count_occ l best < count_occ l v then v else best) dflt

/-- Name of a biome as the Python string column stores it. -/
def Biome.name : Biome → String
  | .Forest => "Forest"
  | .Plains => "Plains"
  | .Desert => "Desert"
  | .Mountains => "Mountains"
  | .Swamp => "Swamp"
  | .Nether => "Nether"
  | .End => "End"

/-- Name of a resource as the Python string column stores it. -/
def Resource.name : Resource → String
  | .Diamond => "Diamond"
  | .Iron => "Iron"
  | .Gold => "Gold"
  | .Redstone => "Redstone"
  | .Coal => "Coal"

/-- `top_biome = mining_f["biome"].value_counts().idxmax() if not mining_f.empty
else "—"`. -/
def top_biome (m : List MiningRec) : String :=
  if m = [] then "—"
  else (idxmax_count Biome.Forest (m.map (·.biome))).name

/-- `top_resource = mining_f["resource"].value_counts().idxmax() if not
mining_f.empty else "—"`. -/
def top_resource (m : List MiningRec) : String :=
  if m = [] then "—"
  else (idxmax_count Resource.Diamond (m.map (·.resource))).name

/-! ## Data generation

`generate_data` models `src/project.py` lines 19–62. numpy's global Mersenne
Twister state is modelled by an abstract deterministic state `Rng`:
`np.random.seed(42)` replaces whatever state is current with `np_seed 42`,
and each drawing primitive threads the state. The exact numbers drawn are
irrelevant to every claim (distribution fidelity is out of scope); what the
model preserves is (a) determinism as a function of the seeded state and the
size parameters, and (b) numpy's validation failures: `randint` raises
`ValueError` when `low >= high` or when the size is negative, and `choice`
raises `ValueError` on an empty population. A raised `ValueError` is the
`.error` branch of `Except`. -/

/-- numpy global RNG state (abstract deterministic model). -/
abbrev Rng := Nat

/-- `np.random.seed(n)`: replace the global state. -/
def np_seed (n : Nat) : Rng := n

/-- One step of the modelled generator (a linear congruential mix). -/
def rngStep (s : Nat) : Nat := (1103515245 * s + 12345) % 2147483648

/-- Draw `k` raw naturals, threading the state. -/
def drawNats : Nat → Rng → List Nat × Rng
  | 0, r => ([], r)
  | k + 1, r =>
    let r1 := rngStep r
    let (rest, rf) := drawNats k r1
    (r1 :: rest, rf)

/-- `np.random.randint(lo, hi, size)`: raises when `lo >= hi` (`low >= high`)
or when `size < 0` (`negative dimensions are not allowed`); otherwise `size`
integers in `[lo, hi)`. -/
def np_randint (lo hi size : Int) (r : Rng) : Except String (List Int × Rng) :=
  if hi ≤ lo then .error "low >= high"
  else if size < 0 then .error "negative dimensions are not allowed"
  else
    let (ns, rf) := drawNats size.toNat r
    .ok (ns.map (fun n => lo + (n : Int) % (hi - lo)), rf)

/-- `np.random.choice(pop, size)`: raises on an empty population
(`a must be non-empty`) or a negative size; otherwise `size` elements of
`pop`. -/
def np_choice {α : Type} (pop : List α) (size : Int) (r : Rng) :
    Except String (List α × Rng) :=
  match pop with
  | [] => .error "a must be non-empty"
  | x :: xs =>
    if size < 0 then .error "negative dimensions are not allowed"
    else
      let (ns, rf) := drawNats size.toNat r
      .ok (ns.map (fun n => (x :: xs).getD (n % (xs.length + 1)) x), rf)

/-- `np.random.choice(pop, size, p=probs)`: the weight vector only shapes the
distribution, which no claim depends on; validation and determinism are those
of `np_choice`. -/
def np_choice_p {α : Type} (pop : List α) (probs : List ℚ) (size : Int) (r : Rng) :
    Except String (List α × Rng) :=
  let _ := probs
  np_choice pop size r

/-- `np.random.gamma(shape, scale, size)`: nonnegative rationals; raises on a
negative size. -/
def np_gamma (shape scale : ℚ) (size : Int) (r : Rng) : Except String (List ℚ × Rng) :=
  let _ := shape
  let _ := scale
  if size < 0 then .error "negative dimensions are not allowed"
  else
    let (ns, rf) := drawNats size.toNat r
    .ok (ns.map (fun n => ((n % 1000 : Nat) : ℚ) / 100), rf)

/-- `np.random.lognormal(mean, sigma, size)`: nonnegative rationals; raises
on a negative size. -/
def np_lognormal (mean sigma : ℚ) (size : Int) (r : Rng) : Except String (List ℚ × Rng) :=
  let _ := mean
  let _ := sigma
  if size < 0 then .error "negative dimensions are not allowed"
  else
    let (ns, rf) := drawNats size.toNat r
    .ok (ns.map (fun n => ((n % 1000 : Nat) : ℚ) / 100 + 1), rf)

/-- Zip the five Activity columns into rows (`pd.DataFrame` of equal-length
columns). -/
def buildActivity : List Int → List String → List ℚ → List Style → List Mode →
    List ActivityRec
  | d :: ds, p :: ps, h :: hs, s :: ss, m :: ms =>
    ⟨d, p, h, s, m⟩ :: buildActivity ds ps hs ss ms
  | _, _, _, _, _ => []

/-- Zip the six Mining columns into rows. -/
def buildMining : List Int → List String → List Resource → List Int → List Biome →
    List Mode → List MiningRec
  | d :: ds, p :: ps, re :: res, y :: ys, b :: bs, m :: ms =>
    ⟨d, p, re, y, b, m⟩ :: buildMining ds ps res ys bs ms
  | _, _, _, _, _, _ => []

/-- Zip the five Economy columns into rows. -/
def buildEconomy : List Int → List String → List ℚ → List Mode → List Bool →
    List EconomyRec
  | d :: ds, p :: ps, b :: bs, m :: ms, c :: cs =>
    ⟨d, p, b, m, c⟩ :: buildEconomy ds ps bs ms cs
  | _, _, _, _, _ => []

/-- Zip the four Deaths columns into rows. -/
def buildDeaths : List Int → List String → List Cause → List Mode → List DeathRec
  | d :: ds, p :: ps, c :: cs, m :: ms =>
    ⟨d, p, c, m⟩ :: buildDeaths ds ps cs ms
  | _, _, _, _ => []

/-- The four generated tables. -/
structure Tables where
  activity : List ActivityRec
  mining : List MiningRec
  economy : List EconomyRec
  deaths : List DeathRec
deriving DecidableEq, Repr

/-- `generate_data(n_players=120, max_days=365)`: seeds the global RNG with
the constant 42, builds the player list and the four tables in source order.
`r0` is the ambient global RNG state at call time, overwritten by the seed
call. -/
def generate_data (r0 : Rng) (n_players : Int := 120) (max_days : Int := 365) :
    Except String Tables := do
  let r := np_seed 42
  let _ := r0
  let players := (List.range n_players.toNat).map (fun i => "Player_" ++ toString (i + 1))
  let styles := [Style.Builder, Style.Miner, Style.Fighter, Style.Explorer]
  let biomes := [Biome.Forest, Biome.Plains, Biome.Desert, Biome.Mountains,
    Biome.Swamp, Biome.Nether, Biome.End]
  let resources := [Resource.Diamond, Resource.Iron, Resource.Gold,
    Resource.Redstone, Resource.Coal]
  let death_causes := [Cause.Lava, Cause.Creeper, Cause.Fall, Cause.PvP,
    Cause.Skeleton, Cause.Void]
  let modes := [Mode.Survival, Mode.Creative, Mode.Hardcore]
  let sizeA := n_players * max_days
  let (dayA, r) ← np_randint 1 (max_days + 1) sizeA r
  let (playerA, r) ← np_choice players sizeA r
  let (hoursA, r) ← np_gamma (11/5) (9/5) sizeA r
  let (styleA, r) ← np_choice styles sizeA r
  let (modeA, r) ← np_choice_p modes [11/20, 1/4, 1/5] sizeA r
  let activity := buildActivity dayA playerA hoursA styleA modeA
  let (dayM, r) ← np_randint 1 (max_days + 1) 12000 r
  let (playerM, r) ← np_choice players 12000 r
  let (resM, r) ← np_choice_p resources [2/25, 8/25, 9/50, 11/50, 1/5] 12000 r
  let (yM, r) ← np_randint (-64) 128 12000 r
  let (biomeM, r) ← np_choice biomes 12000 r
  let (modeM, r) ← np_choice_p modes [11/20, 1/4, 1/5] 12000 r
  let mining := buildMining dayM playerM resM yM biomeM modeM
  let sizeE := n_players * 8
  let (dayE, r) ← np_randint 1 (max_days + 1) sizeE r
  let (playerE, r) ← np_choice players sizeE r
  let (balE, r) ← np_lognormal (16/5) (9/10) sizeE r
  let (modeE, r) ← np_choice modes sizeE r
  let (cheatE, r) ← np_choice_p [true, false] [3/25, 22/25] sizeE r
  let economy := buildEconomy dayE playerE balE modeE cheatE
  let (dayD, r) ← np_randint 1 (max_days + 1) 4000 r
  let (playerD, r) ← np_choice players 4000 r
  let (causeD, r) ← np_choice death_causes 4000 r
  let (modeD, _) ← np_choice modes 4000 r
  let deaths := buildDeaths dayD playerD causeD modeD
  return ⟨activity, mining, economy, deaths⟩

/-! ## Chart-data projection: top players (Player Analytics tab) -/

/-- Ordering of grouped rows by descending summed hours; `hoursGE x y` says
`x` sorts no later than `y`. -/
def hoursGE (x y : String × ℚ) : Prop := y.2 ≤ x.2

instance : DecidableRel hoursGE := fun x y => inferInstanceAs (Decidable (y.2 ≤ x.2))

/-- Sum of `hours_played` over the rows of one player. -/
def sumHours (a : List ActivityRec) (q : String) : ℚ :=
  ((a.filter (fun r => decide (r.player = q))).map (·.hours_played)).sum

/-- `activity_f.groupby("player")["hours_played"].sum()`: one row per
distinct player, keys sorted ascending (pandas `groupby` default
`sort=True`; the keys are distinct, so any correct sort yields this list). -/
def grouped_hours (a : List ActivityRec) : List (String × ℚ) :=
  (List.insertionSort (· ≤ ·) ((a.map (·.player)).dedup)).map fun q => (q, sumHours a q)

/-- The contract pandas documents for `.sort_values(ascending=False)` under
the default `kind='quicksort'`: the result is a permutation of the input
that is descending in the value column. quicksort is documented as not
stable, so the relative order of tied values is implementation-defined;
`SortValuesDesc g s` therefore says only that `s` is an admissible result
of sorting `g`, without fixing a tie order the code does not guarantee. -/
def SortValuesDesc (g s : List (String × ℚ)) : Prop :=
  s.Perm g ∧ s.Pairwise hoursGE

/-- `top_players` (group, sum, sort descending, `.head(15)`):
`TopPlayersResult a t` says `t` is an admissible value of the projection —
the 15-truncation of some admissible descending sort of the grouped table. -/
def TopPlayersResult (a : List ActivityRec) (t : List (String × ℚ)) : Prop :=
  ∃ s, SortValuesDesc (grouped_hours a) s ∧ t = s.take 15

/-! ## Distinguished parameter values and concrete tables

`fullBiomes`/`fullResources` are the sidebar multiselect defaults
(`sorted(mining["biome"].unique())` etc. — every value of the enum);
`fullParams` is the parameter set with the widest day range and no flags.
The remaining definitions are concrete inputs used by closed theorems. -/

/-- Every biome (the multiselect default selects all of them). -/
def fullBiomes : List Biome :=
  [.Forest, .Plains, .Desert, .Mountains, .Swamp, .Nether, .End]

/-- Every resource (the multiselect default selects all of them). -/
def fullResources : List Resource :=
  [.Diamond, .Iron, .Gold, .Redstone, .Coal]

/-- The parameter set with full selections, day range `1..D` and both
checkboxes off. -/
def fullParams (m : Mode) (D : Int) : Params :=
  ⟨m, 1, D, fullBiomes, fullResources, false, false⟩

/-- Parameters whose filtered Activity table is empty while the filtered
Deaths table is not. -/
def pCx : Params := ⟨Mode.Survival, 1, 1, [], [], false, false⟩

/-- A raw Activity table with no Survival rows (filters to empty). -/
def rawACx : List ActivityRec := [⟨1, "A", 5, Style.Builder, Mode.Creative⟩]

/-- A raw Deaths table with ten in-range Survival rows. -/
def rawDCx : List DeathRec := List.replicate 10 ⟨1, "X", Cause.Lava, Mode.Survival⟩

/-- An Activity table with five distinct players. -/
def aW : List ActivityRec :=
  [⟨1, "P1", 1, Style.Builder, Mode.Survival⟩,
   ⟨1, "P2", 1, Style.Builder, Mode.Survival⟩,
   ⟨1, "P3", 1, Style.Builder, Mode.Survival⟩,
   ⟨1, "P4", 1, Style.Builder, Mode.Survival⟩,
   ⟨1, "P5", 1, Style.Builder, Mode.Survival⟩]

/-- A Deaths table with ten rows. -/
def dW : List DeathRec := List.replicate 10 ⟨1, "P1", Cause.Lava, Mode.Survival⟩

/-- A parameter set with `day_lo > day_hi` (never produced by the slider). -/
def pBad : Params := ⟨Mode.Survival, 5, 2, fullBiomes, fullResources, false, false⟩

/-- One in-range Survival activity row. -/
def rawABad : List ActivityRec := [⟨3, "A", 4, Style.Builder, Mode.Survival⟩]

/-- One in-range Survival mining row. -/
def rawMBad : List MiningRec := [⟨3, "A", Resource.Iron, 10, Biome.Forest, Mode.Survival⟩]

/-- One in-range Survival economy row. -/
def rawEBad : List EconomyRec := [⟨3, "A", 4, Mode.Survival, false⟩]

/-- One in-range Survival deaths row. -/
def rawDBad : List DeathRec := [⟨3, "A", Cause.Lava, Mode.Survival⟩]

/-- A parameter set exercising both checkboxes and narrow selections. -/
def pW7 : Params := ⟨Mode.Survival, 2, 3, [Biome.Desert], [Resource.Coal], true, true⟩

/-- A two-row Activity table with days inside `1..2`. -/
def rawAW7 : List ActivityRec :=
  [⟨1, "A", 3, Style.Builder, Mode.Survival⟩,
   ⟨2, "B", 1, Style.Miner, Mode.Creative⟩]

/-- A one-row Mining table with day inside `1..2`. -/
def rawMW7 : List MiningRec := [⟨1, "A", Resource.Iron, 10, Biome.Forest, Mode.Survival⟩]

/-- A one-row Economy table with day inside `1..2`. -/
def rawEW7 : List EconomyRec := [⟨2, "A", 4, Mode.Survival, false⟩]

/-- A one-row Deaths table with day inside `1..2`. -/
def rawDW7 : List DeathRec := [⟨2, "A", Cause.Lava, Mode.Survival⟩]

/-- An Activity table with a single player split over two sessions. -/
def aTP : List ActivityRec :=
  [⟨1, "A", 7, Style.Builder, Mode.Survival⟩,
   ⟨2, "A", 1, Style.Miner, Mode.Survival⟩]

/-- An Activity table with two players tied on summed hours. -/
def aTie : List ActivityRec :=
  [⟨1, "A", 5, Style.Builder, Mode.Survival⟩,
   ⟨1, "B", 5, Style.Builder, Mode.Survival⟩]

/-! ## Helper lemmas -/

/-- Every biome is selected by the default multiselect. -/
lemma mem_fullBiomes (b : Biome) : b ∈ fullBiomes := by
  cases b <;> simp [fullBiomes]

/-- Every resource is selected by the default multiselect. -/
lemma mem_fullResources (s : Resource) : s ∈ fullResources := by
  cases s <;> simp [fullResources]

/-- An inverted day range matches no day. -/
lemma between_eq_false_of_lt {lo hi : Int} (x : Int) (h : hi < lo) :
    between lo hi x = false := by
  simp only [between, Bool.and_eq_false_iff, decide_eq_false_iff_not, not_le]
  omega

/-- A day inside `1..D` passes the widest range test. -/
lemma between_full {D x : Int} (h1 : 1 ≤ x) (h2 : x ≤ D) : between 1 D x = true := by
  simp [between, h1, h2]

/-- Filtering twice with the same predicate equals filtering once. -/
lemma filter_idem {α : Type} (q : α → Bool) (l : List α) :
    (l.filter q).filter q = l.filter q := by
  rw [List.filter_filter]
  exact List.filter_congr fun x _ => by cases h : q x <;> simp [h]

/-- `np.random.randint` raises `low >= high` when the range is empty. -/
lemma np_randint_error_of_le {lo hi : Int} (size : Int) (r : Rng) (h : hi ≤ lo) :
    np_randint lo hi size r = .error "low >= high" := by
  simp [np_randint, h]

/-- `np.random.randint` raises on a negative size. -/
lemma np_randint_error_of_neg {lo hi : Int} (size : Int) (r : Rng) (hlt : lo < hi)
    (h : size < 0) :
    np_randint lo hi size r = .error "negative dimensions are not allowed" := by
  simp [np_randint, not_le.mpr hlt, h]

/-- `np.random.randint` with size 0 returns the empty column. -/
lemma np_randint_zero {lo hi : Int} (r : Rng) (hlt : lo < hi) :
    np_randint lo hi 0 r = .ok ([], r) := by
  simp [np_randint, not_le.mpr hlt, drawNats]

/-- Every admissible descending sort with a strictly dominating row puts
that row first, so the truncated ranking heads with it. -/
lemma head_of_sorted_perm_unique_max (g s : List (String × ℚ)) (pr : String × ℚ)
    (hperm : s.Perm g) (hsort : s.Pairwise hoursGE)
    (hmem : pr ∈ g) (hmax : ∀ q ∈ g, q ≠ pr → q.2 < pr.2) :
    (s.take 15).head? = some pr := by
  have hmem' : pr ∈ s := hperm.mem_iff.mpr hmem
  obtain ⟨b, t, hbt⟩ : ∃ b t, s = b :: t := by
    cases hs : s with
    | nil => rw [hs] at hmem'; cases hmem'
    | cons b t => exact ⟨b, t, rfl⟩
  rw [hbt] at hsort hmem' hperm
  have hb_mem : b ∈ g := hperm.mem_iff.mp (List.mem_cons_self b t)
  have hbeq : b = pr := by
    rcases List.mem_cons.mp hmem' with h | h
    · exact h.symm
    · by_contra hne
      have h1 : b.2 < pr.2 := hmax b hb_mem hne
      have h2 : pr.2 ≤ b.2 := (List.pairwise_cons.mp hsort).1 pr h
      exact absurd h1 (not_lt.mpr h2)
  rw [hbt, hbeq]
  rfl

/-- The grouped table of `aTP` evaluates to a single row with summed hours. -/
lemma grouped_hours_aTP : grouped_hours aTP = [("A", 8)] := by
  have h1 : ((aTP.map (·.player)).dedup) = ["A"] := by decide
  unfold grouped_hours
  rw [h1]
  norm_num [List.insertionSort, List.orderedInsert, sumHours, aTP, List.filter_cons]

/-- "A" precedes "B" in the string order used to sort group keys. -/
lemma strA_lt_strB : ("A" : String) < "B" := by
  rw [String.lt_iff_toList_lt]
  decide

/-- The grouped table of `aTie` evaluates to two rows tied at 5 hours, in
key order "A" then "B". -/
lemma grouped_hours_aTie : grouped_hours aTie = [("A", 5), ("B", 5)] := by
  have h1 : ((aTie.map (·.player)).dedup) = ["A", "B"] := by decide
  unfold grouped_hours
  rw [h1]
  have h2 : List.insertionSort (fun a b => a ≤ b) ["A", "B"] = ["A", "B"] := by
    simp only [List.insertionSort, List.orderedInsert_nil]
    exact List.orderedInsert_of_le _ _ (le_of_lt strA_lt_strB)
  rw [h2]
  have hBA : ("B" : String) ≠ "A" := by decide
  have hAB : ("A" : String) ≠ "B" := by decide
  norm_num [sumHours, aTie, List.filter_cons, hBA, hAB]

/-! ## Claim theorems -/

/-- C1 (counterexample): at a filtered input with no matching activity rows
and ten matching death rows, `unique_players = 0` and `deaths_count = 10`;
the `max(.,1)`-denominator chaos index (Chaos tab) evaluates to 10, not 0,
and differs from the branch-guarded Statistics-tab chaos index, which is 0.
This refutes the claim that the chaos index always equals
`deaths_count / max(unique_players, 1)` and is 0 at `unique_players = 0`
with no hypothesis on `deaths_count`. -/
theorem chaos_index_counterexample :
    unique_players (activity_f pCx rawACx) = 0 ∧
    deaths_count (deaths_f pCx rawDCx) = 10 ∧
    chaos_index_chaos (activity_f pCx rawACx) (deaths_f pCx rawDCx) = 10 ∧
    chaos_index_stats (activity_f pCx rawACx) (deaths_f pCx rawDCx) = 0 ∧
    chaos_index_chaos (activity_f pCx rawACx) (deaths_f pCx rawDCx) ≠
      chaos_index_stats (activity_f pCx rawACx) (deaths_f pCx rawDCx) := by
  have hu : unique_players (activity_f pCx rawACx) = 0 := by decide
  have hd10 : deaths_count (deaths_f pCx rawDCx) = 10 := by decide
  refine ⟨hu, hd10, ?_, ?_, ?_⟩
  · norm_num [chaos_index_chaos, hu, hd10]
  · norm_num [chaos_index_stats, hu]
  · norm_num [chaos_index_chaos, chaos_index_stats, hu, hd10]

/-- C1 (amended): when `unique_players > 0` the Statistics-tab chaos index
and the Chaos-tab `max(.,1)` form agree and both equal
`deaths_count / unique_players`; when `unique_players = 0` the Statistics
form yields 0 while the `max(.,1)` form yields `deaths_count` (hence 0 only
when `deaths_count = 0`). -/
theorem chaos_index_forms (a : List ActivityRec) (d : List DeathRec) :
    (0 < unique_players a →
      chaos_index_stats a d = chaos_index_chaos a d ∧
      chaos_index_chaos a d = (deaths_count d : ℚ) / (unique_players a : ℚ)) ∧
    (unique_players a = 0 →
      chaos_index_stats a d = 0 ∧ chaos_index_chaos a d = (deaths_count d : ℚ)) := by
  constructor
  · intro h
    have hmax : max (unique_players a) 1 = unique_players a := by omega
    constructor
    · simp [chaos_index_stats, chaos_index_chaos, if_pos h, hmax]
    · simp [chaos_index_chaos, hmax]
  · intro h
    constructor
    · simp [chaos_index_stats, h]
    · simp [chaos_index_chaos, h]

/-- C1 (witness): with 5 unique players and 10 deaths both chaos indices
equal 2, by applying `chaos_index_forms` at that concrete input. -/
theorem chaos_index_forms_witness :
    chaos_index_stats aW dW = 2 ∧ chaos_index_chaos aW dW = 2 := by
  have h := (chaos_index_forms aW dW).1 (by decide)
  have h5 : unique_players aW = 5 := by decide
  have h10 : deaths_count dW = 10 := by decide
  refine ⟨?_, ?_⟩
  · rw [h.1, h.2, h5, h10]; norm_num
  · rw [h.2, h5, h10]; norm_num

/-- C2: the Activity filter keeps exactly the records with
`day_lo ≤ day ≤ day_hi`, matching mode, and — when `active_only` is set —
`hours_played > 2`; no other records are kept (equality of lists, so order
and multiplicity are also preserved). -/
theorem activity_filter_exact (p : Params) (raw : List ActivityRec) :
    activity_f p raw = raw.filter fun r =>
      decide (p.day_lo ≤ r.day ∧ r.day ≤ p.day_hi ∧ r.mode = p.mode ∧
        (p.active_only = true → 2 < r.hours_played)) := by
  unfold activity_f
  cases hp : p.active_only with
  | false =>
    simp only [Bool.false_eq_true, if_false]
    refine List.filter_congr fun x _ => ?_
    rw [Bool.eq_iff_iff]
    simp only [Bool.and_eq_true, decide_eq_true_eq, between, hp]
    tauto
  | true =>
    simp only [if_true, List.filter_filter]
    refine List.filter_congr fun x _ => ?_
    rw [Bool.eq_iff_iff]
    simp only [Bool.and_eq_true, decide_eq_true_eq, between, hp, true_implies]
    tauto

/-- C3: the Mining filter keeps exactly the records whose day lies in the
inclusive range, whose mode matches, whose biome is in the selected biome
set and whose resource is in the selected resource set. -/
theorem mining_filter_exact (p : Params) (raw : List MiningRec) :
    mining_f p raw = raw.filter fun r =>
      decide (p.day_lo ≤ r.day ∧ r.day ≤ p.day_hi ∧ r.mode = p.mode ∧
        r.biome ∈ p.biomes ∧ r.resource ∈ p.resources) := by
  refine List.filter_congr fun x _ => ?_
  rw [Bool.eq_iff_iff]
  simp only [Bool.and_eq_true, decide_eq_true_eq, between]
  tauto

/-- C4: the KPI block never fails on empty filtered input: on an empty
Activity table `unique_players = 0` and `avg_playtime = 0` (the zero-guard
branch, no division), and on an empty Mining table `top_biome` and
`top_resource` are the sentinel "—" (the emptiness guard, no idxmax on an
empty series); all KPI functions are total. -/
theorem kpis_empty_fallback :
    unique_players [] = 0 ∧ avg_playtime [] = 0 ∧
      top_biome [] = "—" ∧ top_resource [] = "—" := by
  refine ⟨rfl, ?_, rfl, rfl⟩
  simp [avg_playtime, unique_players]

/-- C5 (counterexample): with `day_lo = 5 > 2 = day_hi` the filter stage
does not reject: it produces a (here empty) filtered table for nonempty
in-range raw input, refuting the claim that malformed day ranges are
rejected with a validation error. -/
theorem invalid_day_range_counterexample :
    activity_f pBad rawABad = [] ∧ deaths_f pBad rawDBad = [] := by decide

/-- C5 (amended): the filter stage performs no parameter validation; for any
parameter set with `day_lo > day_hi` every filter silently returns the empty
table (the slider always supplies a sorted pair, so this is unreachable from
the UI; unknown enum values cannot arise from the selectbox). -/
theorem filters_trivial_of_invalid_day_range (p : Params) (h : p.day_hi < p.day_lo)
    (rawA : List ActivityRec) (rawM : List MiningRec) (rawE : List EconomyRec)
    (rawD : List DeathRec) :
    activity_f p rawA = [] ∧ mining_f p rawM = [] ∧ economy_f p rawE = [] ∧
      deaths_f p rawD = [] := by
  have hb : ∀ x : Int, between p.day_lo p.day_hi x = false :=
    fun x => between_eq_false_of_lt x h
  refine ⟨?_, ?_, ?_, ?_⟩
  · unfold activity_f
    have : rawA.filter (fun r => between p.day_lo p.day_hi r.day &&
        decide (r.mode = p.mode)) = [] := by
      simp [List.filter_eq_nil_iff, hb]
    rw [this]
    cases p.active_only <;> simp
  · simp [mining_f, List.filter_eq_nil_iff, hb]
  · unfold economy_f
    have : rawE.filter (fun r => between p.day_lo p.day_hi r.day &&
        decide (r.mode = p.mode)) = [] := by
      simp [List.filter_eq_nil_iff, hb]
    rw [this]
    cases p.honest_only <;> simp
  · simp [deaths_f, List.filter_eq_nil_iff, hb]

/-- C5 (witness): the amended statement applied at the concrete inverted
range `5..2` and one-row raw tables. -/
theorem filters_trivial_of_invalid_day_range_witness :
    activity_f pBad rawABad = [] ∧ mining_f pBad rawMBad = [] ∧
      economy_f pBad rawEBad = [] ∧ deaths_f pBad rawDBad = [] :=
  filters_trivial_of_invalid_day_range pBad (by decide) rawABad rawMBad rawEBad rawDBad

/-- C6: calling the generator with non-positive `n_players` or non-positive
`max_days` fails with a (numpy `ValueError`) validation error and returns no
tables: `max_days ≤ 0` makes `randint(1, max_days+1, _)` raise `low >= high`;
`n_players < 0` makes the first size `n_players * max_days` negative; and
`n_players = 0` makes the player population empty so `choice` raises. -/
theorem generate_data_rejects_nonpositive (r0 : Rng) (n d : Int)
    (h : n ≤ 0 ∨ d ≤ 0) : ∃ e, generate_data r0 n d = Except.error e := by
  by_cases hd : d ≤ 0
  · refine ⟨"low >= high", ?_⟩
    simp only [generate_data]
    rw [np_randint_error_of_le (n * d) (np_seed 42) (by omega)]
    rfl
  · push_neg at hd
    have hn : n ≤ 0 := h.resolve_right (by omega)
    rcases hn.lt_or_eq with hlt | heq
    · refine ⟨"negative dimensions are not allowed", ?_⟩
      simp only [generate_data]
      rw [np_randint_error_of_neg (n * d) (np_seed 42) (by omega)
        (mul_neg_of_neg_of_pos hlt hd)]
      rfl
    · subst heq
      refine ⟨"a must be non-empty", ?_⟩
      simp only [generate_data]
      rw [show (0 : Int) * d = 0 by ring, np_randint_zero (np_seed 42) (by omega)]
      rfl

/-- C6 (witness): `generate_data` with `n_players = 0` errors, by applying
`generate_data_rejects_nonpositive` at that input. -/
theorem generate_data_rejects_nonpositive_witness :
    ∃ e, generate_data 0 0 365 = Except.error e :=
  generate_data_rejects_nonpositive 0 0 365 (Or.inl (by decide))

/-- C7: for every parameter set each filtered table is no longer than its
raw table; and with the full biome and resource sets, the widest day range
`1..D` (all raw days lying in `1..D`), and both flags off, every filter
returns exactly the mode-matching subset of its raw table. -/
theorem filter_card_and_full_range (p : Params) (m : Mode) (D : Int)
    (rawA : List ActivityRec) (rawM : List MiningRec) (rawE : List EconomyRec)
    (rawD : List DeathRec)
    (hA : ∀ r ∈ rawA, 1 ≤ r.day ∧ r.day ≤ D)
    (hM : ∀ r ∈ rawM, 1 ≤ r.day ∧ r.day ≤ D)
    (hE : ∀ r ∈ rawE, 1 ≤ r.day ∧ r.day ≤ D)
    (hDd : ∀ r ∈ rawD, 1 ≤ r.day ∧ r.day ≤ D) :
    (activity_f p rawA).length ≤ rawA.length ∧
    (mining_f p rawM).length ≤ rawM.length ∧
    (economy_f p rawE).length ≤ rawE.length ∧
    (deaths_f p rawD).length ≤ rawD.length ∧
    activity_f (fullParams m D) rawA = rawA.filter (fun r => decide (r.mode = m)) ∧
    mining_f (fullParams m D) rawM = rawM.filter (fun r => decide (r.mode = m)) ∧
    economy_f (fullParams m D) rawE = rawE.filter (fun r => decide (r.mode = m)) ∧
    deaths_f (fullParams m D) rawD = rawD.filter (fun r => decide (r.mode = m)) := by
  refine ⟨?_, List.length_filter_le _ _, ?_, List.length_filter_le _ _, ?_, ?_, ?_, ?_⟩
  · unfold activity_f
    cases p.active_only with
    | false => exact List.length_filter_le _ _
    | true =>
      simp only [if_true]
      exact le_trans (List.length_filter_le _ _) (List.length_filter_le _ _)
  · unfold economy_f
    cases p.honest_only with
    | false => exact List.length_filter_le _ _
    | true =>
      simp only [if_true]
      exact le_trans (List.length_filter_le _ _) (List.length_filter_le _ _)
  · unfold activity_f
    simp only [fullParams, Bool.false_eq_true, if_false]
    refine List.filter_congr fun x hx => ?_
    rw [between_full (hA x hx).1 (hA x hx).2]
    simp
  · refine List.filter_congr fun x hx => ?_
    simp only [fullParams]
    rw [between_full (hM x hx).1 (hM x hx).2]
    simp [mem_fullBiomes, mem_fullResources]
  · unfold economy_f
    simp only [fullParams, Bool.false_eq_true, if_false]
    refine List.filter_congr fun x hx => ?_
    rw [between_full (hE x hx).1 (hE x hx).2]
    simp
  · refine List.filter_congr fun x hx => ?_
    simp only [fullParams]
    rw [between_full (hDd x hx).1 (hDd x hx).2]
    simp

/-- C7 (witness): the theorem applied at concrete one/two-row tables with
days in `1..2`, an arbitrary parameter set with both flags on, and the full
selections at `D = 2`. -/
theorem filter_card_and_full_range_witness :
    (activity_f pW7 rawAW7).length ≤ rawAW7.length ∧
    (mining_f pW7 rawMW7).length ≤ rawMW7.length ∧
    (economy_f pW7 rawEW7).length ≤ rawEW7.length ∧
    (deaths_f pW7 rawDW7).length ≤ rawDW7.length ∧
    activity_f (fullParams Mode.Survival 2) rawAW7 =
      rawAW7.filter (fun r => decide (r.mode = Mode.Survival)) ∧
    mining_f (fullParams Mode.Survival 2) rawMW7 =
      rawMW7.filter (fun r => decide (r.mode = Mode.Survival)) ∧
    economy_f (fullParams Mode.Survival 2) rawEW7 =
      rawEW7.filter (fun r => decide (r.mode = Mode.Survival)) ∧
    deaths_f (fullParams Mode.Survival 2) rawDW7 =
      rawDW7.filter (fun r => decide (r.mode = Mode.Survival)) :=
  filter_card_and_full_range pW7 Mode.Survival 2 rawAW7 rawMW7 rawEW7 rawDW7
    (by decide) (by decide) (by decide) (by decide)

/-- C8: each of the four filters is idempotent — applying it to its own
output with the same parameters returns the identical table. -/
theorem filters_idempotent (p : Params) (rawA : List ActivityRec)
    (rawM : List MiningRec) (rawE : List EconomyRec) (rawD : List DeathRec) :
    activity_f p (activity_f p rawA) = activity_f p rawA ∧
    mining_f p (mining_f p rawM) = mining_f p rawM ∧
    economy_f p (economy_f p rawE) = economy_f p rawE ∧
    deaths_f p (deaths_f p rawD) = deaths_f p rawD := by
  refine ⟨?_, filter_idem _ _, ?_, filter_idem _ _⟩
  · unfold activity_f
    cases hp : p.active_only with
    | false =>
      simp only [Bool.false_eq_true, if_false]
      exact filter_idem _ _
    | true =>
      simp only [if_true, List.filter_filter]
      refine List.filter_congr fun x _ => ?_
      cases h1 : between p.day_lo p.day_hi x.day <;>
        cases h2 : decide (x.mode = p.mode) <;>
          cases h3 : decide ((2:ℚ) < x.hours_played) <;> simp [h1, h2, h3]
  · unfold economy_f
    cases hp : p.honest_only with
    | false =>
      simp only [Bool.false_eq_true, if_false]
      exact filter_idem _ _
    | true =>
      simp only [if_true, List.filter_filter]
      refine List.filter_congr fun x _ => ?_
      cases h1 : between p.day_lo p.day_hi x.day <;>
        cases h2 : decide (x.mode = p.mode) <;>
          cases h3 : x.cheater <;> simp [h1, h2, h3]

/-- C9 (counterexample): on a table with two players tied at 5 summed
hours, the grouped (encounter) order is "A" then "B", yet the reversed
order is also an admissible value of the top-players projection: pandas
sorts with the default `kind='quicksort'`, documented as not stable, so the
code guarantees only a descending-sorted permutation of the grouped table.
Both tie orders satisfy that contract, refuting the claim that tied rows
are guaranteed to come out in grouped encounter order. -/
theorem top_players_tie_counterexample :
    grouped_hours aTie = [("A", 5), ("B", 5)] ∧
    TopPlayersResult aTie [("B", 5), ("A", 5)] ∧
    TopPlayersResult aTie [("A", 5), ("B", 5)] ∧
    [(("B" : String), (5 : ℚ)), ("A", 5)] ≠ [("A", 5), ("B", 5)] := by
  refine ⟨grouped_hours_aTie,
    ⟨[("B", 5), ("A", 5)], ⟨?_, ?_⟩, rfl⟩,
    ⟨[("A", 5), ("B", 5)], ⟨?_, ?_⟩, rfl⟩, by decide⟩
  · rw [grouped_hours_aTie]
    exact List.Perm.swap _ _ _
  · norm_num [List.pairwise_cons, hoursGE]
  · rw [grouped_hours_aTie]
  · norm_num [List.pairwise_cons, hoursGE]

/-- C9 (amended): the projection groups filtered Activity by player (keys
sorted ascending), sums hours, sorts descending and truncates with
`.head(15)`; every admissible result has at most 15 rows, is descending in
summed hours, draws its rows from the grouped table, and — when one grouped
row strictly dominates all others — heads with it. The order of rows tied
on summed hours is implementation-defined (the default sort kind is
unstable), so no particular tie order, in particular grouped encounter
order, is guaranteed; a fixed implementation repeats its own order on
identical input. -/
theorem top_players_spec (a : List ActivityRec) (t : List (String × ℚ))
    (ht : TopPlayersResult a t) :
    t.length ≤ 15 ∧
    t.Pairwise hoursGE ∧
    (∀ x ∈ t, x ∈ grouped_hours a) ∧
    (∀ pr ∈ grouped_hours a, (∀ q ∈ grouped_hours a, q ≠ pr → q.2 < pr.2) →
      t.head? = some pr) := by
  obtain ⟨s, ⟨hperm, hsort⟩, rfl⟩ := ht
  refine ⟨?_, ?_, ?_, ?_⟩
  · rw [List.length_take]
    exact min_le_left _ _
  · exact hsort.sublist (List.take_sublist _ _)
  · intro x hx
    exact hperm.mem_iff.mp ((List.take_sublist _ _).subset hx)
  · intro pr hpr hmax
    exact head_of_sorted_perm_unique_max (grouped_hours a) s pr hperm hsort hpr hmax

/-- C9 (witness): the amended statement applied at the concrete table `aTP`
and the admissible result consisting of its single grouped row. -/
theorem top_players_spec_witness :
    ([(("A" : String), (8 : ℚ))].length ≤ 15 ∧
     [(("A" : String), (8 : ℚ))].Pairwise hoursGE ∧
     (∀ x ∈ [(("A" : String), (8 : ℚ))], x ∈ grouped_hours aTP) ∧
     (∀ pr ∈ grouped_hours aTP, (∀ q ∈ grouped_hours aTP, q ≠ pr → q.2 < pr.2) →
       [(("A" : String), (8 : ℚ))].head? = some pr)) :=
  top_players_spec aTP [("A", 8)]
    ⟨[("A", 8)], ⟨by rw [grouped_hours_aTP], by simp⟩, rfl⟩

/-- C10: `generate_data` reseeds the modelled global RNG with the constant
42 before drawing, so its result is independent of the ambient RNG state at
call time: any two calls with the same `(n_players, max_days)` return
identical results — the output is a function of the size parameters alone. -/
theorem generate_data_deterministic (r1 r2 : Rng) (n d : Int) :
    generate_data r1 n d = generate_data r2 n d := rfl
